import Mathlib

namespace AiTts

/-- A Python string, modelled as its list of characters. -/
abbrev Str := List Char

/-- Python str.strip with no arguments: remove leading and trailing whitespace. -/
def pyStrip (s : Str) : Str :=
  ((s.dropWhile Char.isWhitespace).reverse.dropWhile Char.isWhitespace).reverse

deriving instance DecidableEq for Except

/-- An HTTPException carrying a status code and a detail message. -/
structure HttpErr where
  status : Nat
  detail : String
deriving DecidableEq

/-- The mutable fields of TTSService that implement the model cache:
current_model is the resident handle (an opaque loaded model, modelled as a
numeric handle id), current_model_name the key it was loaded from. -/
structure TTSState where
  current_model : Option Nat
  current_model_name : Option String
deriving DecidableEq

/-- The arguments the code passes to the external synthesis capability,
model.tts_to_file at lines 192-195 of src/main.py.  The code passes only the
text keyword (file_path is the scoped temporary file, not request data); the
speed and pitch keywords are never passed, recorded here as none. -/
structure SynthCall where
  text : Str
  speed : Option ℚ
  pitch : Option ℚ
deriving DecidableEq

/-- Observable events of a run of the service, in program order. -/
inductive Ev where
  | releaseHandle (h : Nat)
  | gcHint
  | constructStart (name : String)
  | constructOk (h : Nat)
  | constructFail
  | hit (h : Nat)
  | synthCall (c : SynthCall)
deriving DecidableEq

/-- The available_voices table built in TTSService.__init__ (lines 88-97),
mapping voice id to the model key stored under its model field. -/
def available_voices : List (String × String) :=
  [("lightweight", "tts_models/en/ljspeech/tacotron2-DDC_ph"),
   ("fast", "tts_models/en/ljspeech/speedy-speech")]

/-- Shared tail of TTSService.get_model: after the clearing phase (whose events
are pre and whose resulting state is s1), construct the model via the external
capability load (lines 120-139), with the failure handler of lines 141-152:
on failure the handler clears current_model only if one is resident (it never
is at this point, since clearing preceded construction) and raises HTTP 500. -/
def loadAfter (load : String → Option Nat) (pre : List Ev) (s1 : TTSState)
    (name : String) : List Ev × TTSState × Except HttpErr Nat :=
  match load name with
  | some h =>
      (pre ++ [Ev.constructStart name, Ev.constructOk h],
       ⟨some h, some name⟩, Except.ok h)
  | none =>
      (pre ++ [Ev.constructStart name, Ev.constructFail],
       if s1.current_model.isSome then ⟨none, none⟩ else s1,
       Except.error ⟨500, "Model loading failed - try again in a moment"⟩)

/-- TTSService.get_model (src/main.py lines 102-152).  Under the model lock:
return the resident model on a key hit (lines 106-108); otherwise delete any
resident model, null both fields and issue reclamation hints (lines 110-118)
before constructing the new model via the external capability (line 130).
The external capability is the parameter load; none means construction raised. -/
def TTSService.get_model (load : String → Option Nat) (s : TTSState)
    (model_name : String) : List Ev × TTSState × Except HttpErr Nat :=
  match s.current_model with
  | some h =>
      if s.current_model_name = some model_name then
        ([Ev.hit h], s, Except.ok h)
      else
        loadAfter load [Ev.releaseHandle h, Ev.gcHint] ⟨none, none⟩ model_name
  | none => loadAfter load [] s model_name

/-- The maximum text length of line 164 of src/main.py. -/
def max_length : Nat := 500

/-- The clamp of line 176: speed = max(0.5, min(2.0, float(speed))). -/
def clampSpeed (speed : ℚ) : ℚ := max (1/2) (min 2 speed)

/-- TTSService.generate_speech (src/main.py lines 154-233).  Steps, in program
order: reject empty or whitespace-only text with HTTP 400 (lines 160-161);
truncate text longer than max_length to its first max_length characters
(lines 164-167); strip the (possibly truncated) text (line 169); silently fall
back to the lightweight voice for an unknown voice id (lines 172-174); clamp
speed (line 176); load the model via get_model (line 182); invoke the external
synthesis capability with only the text (lines 192-195).  The capability is
the parameter synth: none models a raised exception or a missing output file
(lines 200-201), an empty byte list models an empty output file (lines
206-207); both are caught at lines 226-233 and surfaced as HTTP 500. -/
def TTSService.generate_speech (load : String → Option Nat)
    (synth : SynthCall → Option (List Nat)) (s : TTSState)
    (text : Str) (voice : String) (speed : ℚ) :
    List Ev × TTSState × Except HttpErr (List Nat) :=
  if text = [] ∨ pyStrip text = [] then
    ([], s, Except.error ⟨400, "Text cannot be empty"⟩)
  else
    let text1 := if text.length > max_length then text.take max_length else text
    let text2 := pyStrip text1
    let voice1 := if (available_voices.lookup voice).isSome then voice
                  else ("lightweight")
    let speed1 := clampSpeed speed
    let model_key := (available_voices.lookup voice1).getD ("")
    match TTSService.get_model load s model_key with
    | (evs, s1, Except.error e) => (evs, s1, Except.error e)
    | (evs, s1, Except.ok _h) =>
        let call : SynthCall := ⟨text2, none, none⟩
        match synth call with
        | none =>
            (evs ++ [Ev.synthCall call], s1,
             Except.error ⟨500, "Speech generation failed: audio file was not generated"⟩)
        | some audio =>
            if audio = [] then
              (evs ++ [Ev.synthCall call], s1,
               Except.error ⟨500, "Speech generation failed: generated audio file is empty"⟩)
            else
              (evs ++ [Ev.synthCall call], s1, Except.ok audio)

/-- TTSService.cleanup (src/main.py lines 235-248): under the lock, if a model
is resident delete it and null both fields; then issue reclamation hints. -/
def TTSService.cleanup (s : TTSState) : TTSState :=
  if s.current_model.isSome then ⟨none, none⟩ else s

/-- The POST /cleanup endpoint force_cleanup (src/main.py lines 385-405): if
the service exists, under its lock delete any resident model and null both
fields; then issue reclamation hints. -/
def force_cleanup (service : Option TTSState) : Option TTSState :=
  match service with
  | none => none
  | some s => some (if s.current_model.isSome then ⟨none, none⟩ else s)

/-- What the admission check of the POST /generate-speech endpoint observed
and decided: whether a reclamation hint (gc.collect) was issued, how many
seconds were slept, and whether the request was admitted. -/
structure AdmissionTrace where
  gcIssued : Bool
  sleptSeconds : Nat
  admitted : Bool
deriving DecidableEq

/-- The single memory threshold of lines 282 and 289 of src/main.py, in MB. -/
def hard_threshold : ℚ := 480

/-- The admission check of the POST /generate-speech endpoint (src/main.py
lines 281-293).  The two memory readings (before, and after the reclamation
hint) are inputs, since process memory is external.  If the first reading
exceeds the threshold, the code always issues gc.collect, sleeps one second,
re-reads, and rejects only if the second reading still exceeds the threshold. -/
def admission_check (memory_before memory_after_gc : ℚ) : AdmissionTrace :=
  if memory_before > hard_threshold then
    if memory_after_gc > hard_threshold then ⟨true, 1, false⟩
    else ⟨true, 1, true⟩
  else ⟨false, 0, true⟩

/-- The body of a POST /generate-speech request (lines 76-79): voice defaults
to lightweight and speed to 1.0 at the schema level; both are Optional. -/
structure TTSRequest where
  text : Str
  voice : Option String
  speed : Option ℚ

/-- The POST /generate-speech endpoint (src/main.py lines 274-334).  In
program order: 503 if the service is not initialised (lines 277-278); the
admission check (lines 281-293), rejecting with 503 when it does not admit;
400 on empty or whitespace-only text (lines 296-298); then the call into
TTSService.generate_speech with the stripped text, with Python's or-defaults
(an empty voice string or a zero speed also falls back, lines 306-310).
Returns the admission trace (none when never reached), the event trace, the
final service state, and the HTTP outcome. -/
def generate_speech_endpoint (load : String → Option Nat)
    (synth : SynthCall → Option (List Nat)) (service : Option TTSState)
    (memory_before memory_after_gc : ℚ) (req : TTSRequest) :
    Option AdmissionTrace × List Ev × Option TTSState ×
      Except HttpErr (List Nat) :=
  match service with
  | none => (none, [], none, Except.error ⟨503, "TTS service not ready"⟩)
  | some s =>
      let adm := admission_check memory_before memory_after_gc
      if adm.admitted = false then
        (some adm, [], some s,
         Except.error ⟨503, "Service temporarily overloaded - please try again in a moment"⟩)
      else if req.text = [] ∨ pyStrip req.text = [] then
        (some adm, [], some s, Except.error ⟨400, "Text cannot be empty"⟩)
      else
        let voiceArg := match req.voice with
          | none => "lightweight"
          | some v => if v = "" then ("lightweight") else v
        let speedArg := match req.speed with
          | none => 1
          | some sp => if sp = 0 then 1 else sp
        match TTSService.generate_speech load synth s (pyStrip req.text)
            voiceArg speedArg with
        | (evs, s1, res) => (some adm, evs, some s1, res)

/-- The synthesis-capability invocations recorded in an event trace. -/
def synthCalls (evs : List Ev) : List SynthCall :=
  evs.filterMap (fun e =>
    match e with
    | Ev.synthCall c => some c
    | _ => none)

/-- The multiset (as a list) of live constructed model handles implied by an
event: a release removes the handle, a completed construction adds one. -/
def stepLive (live : List Nat) : Ev → List Nat
  | Ev.releaseHandle h => live.erase h
  | Ev.constructOk h => h :: live
  | _ => live

/-- The live-handle sets at every observable instant of an event trace,
starting from the given initial set: one entry per prefix of the trace. -/
def liveInstants (init : List Nat) (evs : List Ev) : List (List Nat) :=
  evs.scanl stepLive init

/-- The handles resident in a cache state. -/
def stateLive (s : TTSState) : List Nat := s.current_model.toList

/-- The cache-consistency invariant: a model name is recorded exactly when a
model handle is resident. -/
def stateInv (s : TTSState) : Prop :=
  s.current_model.isNone ↔ s.current_model_name.isNone

instance (s : TTSState) : Decidable (stateInv s) := by
  unfold stateInv
  infer_instance

/-- A concrete external load capability that always succeeds with handle 0. -/
def load0 : String → Option Nat := fun _ => some 0

/-- A concrete external synthesis capability that always produces one byte. -/
def synth0 : SynthCall → Option (List Nat) := fun _ => some [1]

/-- A concrete external load capability that always raises. -/
def loadFail : String → Option Nat := fun _ => none

/-- A 501-character text whose 500-character prefix ends in whitespace. -/
def ctext : Str := List.replicate 499 'a' ++ [' ', 'b']

lemma synthCalls_append (l1 l2 : List Ev) :
    synthCalls (l1 ++ l2) = synthCalls l1 ++ synthCalls l2 := by
  simp [synthCalls]

lemma synthCalls_get_model (load : String → Option Nat) (s : TTSState)
    (name : String) : synthCalls (TTSService.get_model load s name).1 = [] := by
  rcases s with ⟨cm, cn⟩
  cases cm with
  | none =>
      cases hload : load name <;>
        simp [TTSService.get_model, loadAfter, hload, synthCalls]
  | some h =>
      by_cases hn : cn = some name
      · simp [TTSService.get_model, hn, synthCalls]
      · cases hload : load name <;>
          simp [TTSService.get_model, loadAfter, hload, hn, synthCalls]

lemma stateInv_get_model (load : String → Option Nat) (s : TTSState)
    (name : String) (hinv : stateInv s) :
    stateInv (TTSService.get_model load s name).2.1 := by
  rcases s with ⟨cm, cn⟩
  cases cm with
  | none =>
      have hcn : cn = none := by
        simpa [stateInv] using hinv
      subst hcn
      cases hload : load name <;>
        simp [TTSService.get_model, loadAfter, hload, stateInv]
  | some h =>
      by_cases hn : cn = some name
      · simpa [TTSService.get_model, hn] using hinv
      · cases hload : load name <;>
          simp [TTSService.get_model, loadAfter, hload, hn, stateInv]

/-- The synthesis calls of a generate_speech run: there are none, or exactly
one, whose text is the strip of the (truncated when over-long) input text and
which passes no speed and no pitch keyword. -/
lemma synthCalls_generate_speech (load : String → Option Nat)
    (synth : SynthCall → Option (List Nat)) (s : TTSState) (text : Str)
    (voice : String) (speed : ℚ) :
    synthCalls (TTSService.generate_speech load synth s text voice speed).1
      = [] ∨
    synthCalls (TTSService.generate_speech load synth s text voice speed).1
      = [⟨pyStrip (if text.length > max_length then text.take max_length
                   else text), none, none⟩] := by
  unfold TTSService.generate_speech
  by_cases hempty : (text = [] ∨ pyStrip text = [])
  · simp [hempty, synthCalls]
  · simp only [if_neg hempty]
    rcases hgm : TTSService.get_model load s
        ((available_voices.lookup
          (if (available_voices.lookup voice).isSome then voice
           else ("lightweight"))).getD ("")) with ⟨evs, s1, res⟩
    have hevs : synthCalls evs = [] := by
      have := synthCalls_get_model load s
        ((available_voices.lookup
          (if (available_voices.lookup voice).isSome then voice
           else ("lightweight"))).getD (""))
      rw [hgm] at this
      exact this
    cases res with
    | error e => simp [hgm, hevs]
    | ok h =>
        have hevs2 : ∀ a ∈ evs,
            (match a with
             | Ev.synthCall c => some c
             | _ => none) = (none : Option SynthCall) := by
          simpa [synthCalls] using hevs
        cases hsy : synth ⟨pyStrip (if text.length > max_length
            then text.take max_length else text), none, none⟩ with
        | none =>
            simp [hgm, hsy, synthCalls]
            exact hevs2
        | some audio =>
            by_cases ha : audio = []
            · simp [hgm, hsy, ha, synthCalls]
              exact hevs2
            · simp [hgm, hsy, ha, synthCalls]
              exact hevs2

/-- Claim C3: at every observable instant of a get_model call, with the
implementation's capacity of one, at most one constructed model handle is
live; in particular a miss that evicts never holds the old and the new model
simultaneously, because the old handle is released before construction. -/
theorem claim_C3_at_most_one_resident (load : String → Option Nat)
    (s : TTSState) (name : String) (l : List Nat)
    (hl : l ∈ liveInstants (stateLive s) (TTSService.get_model load s name).1) :
    l.length ≤ 1 := by
  rcases s with ⟨cm, cn⟩
  cases cm with
  | none =>
      cases hload : load name with
      | some h =>
          simp [TTSService.get_model, loadAfter, hload, liveInstants,
            List.scanl, stepLive, stateLive] at hl
          rcases hl with rfl | rfl | rfl <;> simp
      | none =>
          simp [TTSService.get_model, loadAfter, hload, liveInstants,
            List.scanl, stepLive, stateLive] at hl
          rcases hl with rfl | rfl | rfl <;> simp
  | some h =>
      by_cases hn : cn = some name
      · simp [TTSService.get_model, hn, liveInstants, List.scanl, stepLive,
          stateLive] at hl
        rcases hl with rfl | rfl <;> simp
      · cases hload : load name with
        | some h2 =>
            simp [TTSService.get_model, loadAfter, hload, hn, liveInstants,
              List.scanl, stepLive, stateLive, List.erase_cons_head] at hl
            rcases hl with rfl | rfl | rfl | rfl | rfl <;> simp
        | none =>
            simp [TTSService.get_model, loadAfter, hload, hn, liveInstants,
              List.scanl, stepLive, stateLive, List.erase_cons_head] at hl
            rcases hl with rfl | rfl | rfl | rfl | rfl <;> simp

/-- Witness for claim C3, at a miss that evicts handle 7 and constructs 0. -/
theorem claim_C3_witness :
    ([0] : List Nat) ∈ liveInstants (stateLive ⟨some 7, some ("k")⟩)
      (TTSService.get_model load0 ⟨some 7, some ("k")⟩ ("m")).1 ∧
    ([0] : List Nat).length ≤ 1 :=
  ⟨by decide, claim_C3_at_most_one_resident load0 ⟨some 7, some ("k")⟩ ("m")
    [0] (by decide)⟩

/-- Claim C4: on every cache miss that finds a resident entry, get_model
releases the evicted handle and issues a reclamation hint strictly before the
construction of the new model begins. -/
theorem claim_C4_reclaim_then_grow (load : String → Option Nat) (s : TTSState)
    (name : String) (h : Nat) (hres : s.current_model = some h)
    (hmiss : s.current_model_name ≠ some name) :
    ∃ rest, (TTSService.get_model load s name).1 =
      Ev.releaseHandle h :: Ev.gcHint :: Ev.constructStart name :: rest := by
  rcases s with ⟨cm, cn⟩
  have hcm : cm = some h := hres
  subst hcm
  have hn : cn ≠ some name := hmiss
  cases hload : load name with
  | some h2 =>
      refine ⟨[Ev.constructOk h2], ?_⟩
      simp [TTSService.get_model, loadAfter, hload, hn]
  | none =>
      refine ⟨[Ev.constructFail], ?_⟩
      simp [TTSService.get_model, loadAfter, hload, hn]

/-- Witness for claim C4, evicting handle 7 before loading key m. -/
theorem claim_C4_witness :
    ∃ rest, (TTSService.get_model load0 ⟨some 7, some ("k")⟩ ("m")).1 =
      Ev.releaseHandle 7 :: Ev.gcHint :: Ev.constructStart ("m") :: rest :=
  claim_C4_reclaim_then_grow load0 ⟨some 7, some ("k")⟩ ("m") 7 rfl (by decide)

/-- Claim C5: a get_model call whose key equals the resident model's key
returns the resident handle with state unchanged and a trace holding only the
hit (no construction, eviction or release); when the key differs or nothing
is resident and construction succeeds, it releases any resident handle,
constructs and inserts the new one, and returns it. -/
theorem claim_C5_hit_no_reload (load : String → Option Nat) (s : TTSState)
    (name : String) :
    (∀ h, s.current_model = some h → s.current_model_name = some name →
      TTSService.get_model load s name = ([Ev.hit h], s, Except.ok h)) ∧
    ((s.current_model = none ∨ s.current_model_name ≠ some name) →
      ∀ hNew, load name = some hNew →
        (TTSService.get_model load s name).2 =
          (⟨some hNew, some name⟩, Except.ok hNew) ∧
        Ev.constructOk hNew ∈ (TTSService.get_model load s name).1 ∧
        ∀ hOld, s.current_model = some hOld →
          Ev.releaseHandle hOld ∈ (TTSService.get_model load s name).1) := by
  constructor
  · intro h hm hn
    rcases s with ⟨cm, cn⟩
    have hcm : cm = some h := hm
    subst hcm
    have hcn : cn = some name := hn
    subst hcn
    simp [TTSService.get_model]
  · intro hmiss hNew hload
    rcases s with ⟨cm, cn⟩
    cases cm with
    | none =>
        simp [TTSService.get_model, loadAfter, hload]
    | some hOld =>
        have hn : cn ≠ some name := by
          rcases hmiss with hx | hx
          · exact absurd hx (by simp)
          · exact hx
        simp [TTSService.get_model, loadAfter, hload, hn]

/-- Witness for claim C5: a hit returns the resident handle unchanged, and a
miss on an empty cache constructs and inserts. -/
theorem claim_C5_witness :
    TTSService.get_model load0 ⟨some 7, some ("k")⟩ ("k") =
      ([Ev.hit 7], ⟨some 7, some ("k")⟩, Except.ok 7) ∧
    (TTSService.get_model load0 ⟨none, none⟩ ("m")).2 =
      (⟨some 0, some ("m")⟩, Except.ok 0) :=
  ⟨(claim_C5_hit_no_reload load0 ⟨some 7, some ("k")⟩ ("k")).1 7 rfl rfl,
   ((claim_C5_hit_no_reload load0 ⟨none, none⟩ ("m")).2 (Or.inl rfl) 0 rfl).1⟩

/-- Claim C6: when construction by the external capability fails on a miss,
get_model surfaces HTTP 500, leaves both the handle slot and the key slot
empty (no partial entry), and a later call for the same key against a
succeeding capability loads and returns a model. -/
theorem claim_C6_load_failure_clean (load : String → Option Nat)
    (s : TTSState) (name : String) (hinv : stateInv s)
    (hmiss : s.current_model = none ∨ s.current_model_name ≠ some name)
    (hfail : load name = none) :
    (TTSService.get_model load s name).2.2 =
      Except.error ⟨500, "Model loading failed - try again in a moment"⟩ ∧
    (TTSService.get_model load s name).2.1 = ⟨none, none⟩ ∧
    ∀ (load2 : String → Option Nat) (h2 : Nat), load2 name = some h2 →
      (TTSService.get_model load2 (TTSService.get_model load s name).2.1
        name).2.2 = Except.ok h2 := by
  rcases s with ⟨cm, cn⟩
  cases cm with
  | none =>
      have hcn : cn = none := by simpa [stateInv] using hinv
      subst hcn
      refine ⟨?_, ?_, ?_⟩
      · simp [TTSService.get_model, loadAfter, hfail]
      · simp [TTSService.get_model, loadAfter, hfail]
      · intro load2 h2 hl2
        simp [TTSService.get_model, loadAfter, hfail, hl2]
  | some h =>
      have hn : cn ≠ some name := by
        rcases hmiss with hx | hx
        · exact absurd hx (by simp)
        · exact hx
      refine ⟨?_, ?_, ?_⟩
      · simp [TTSService.get_model, loadAfter, hfail, hn]
      · simp [TTSService.get_model, loadAfter, hfail, hn]
      · intro load2 h2 hl2
        simp [TTSService.get_model, loadAfter, hfail, hn, hl2]

/-- Witness for claim C6: a failing load on a miss that evicts handle 7
surfaces 500 and leaves the cache fully empty. -/
theorem claim_C6_witness :
    (TTSService.get_model loadFail ⟨some 7, some ("k")⟩ ("m")).2.2 =
      Except.error ⟨500, "Model loading failed - try again in a moment"⟩ ∧
    (TTSService.get_model loadFail ⟨some 7, some ("k")⟩ ("m")).2.1 =
      ⟨none, none⟩ :=
  ⟨(claim_C6_load_failure_clean loadFail ⟨some 7, some ("k")⟩ ("m") (by decide)
      (Or.inr (by decide)) rfl).1,
   (claim_C6_load_failure_clean loadFail ⟨some 7, some ("k")⟩ ("m") (by decide)
      (Or.inr (by decide)) rfl).2.1⟩

/-- Claim C10: every cache-mutating operation preserves the invariant that a
model name is recorded exactly when a model handle is resident: get_model
(hit, miss and failure), generate_speech, cleanup, and the forced-cleanup
endpoint all map invariant states to invariant states. -/
theorem claim_C10_inv_preserved (load : String → Option Nat)
    (synth : SynthCall → Option (List Nat)) (s : TTSState) (name : String)
    (text : Str) (voice : String) (speed : ℚ) (hinv : stateInv s) :
    stateInv (TTSService.get_model load s name).2.1 ∧
    stateInv (TTSService.generate_speech load synth s text voice speed).2.1 ∧
    stateInv (TTSService.cleanup s) ∧
    ∀ s2, force_cleanup (some s) = some s2 → stateInv s2 := by
  refine ⟨stateInv_get_model load s name hinv, ?_, ?_, ?_⟩
  · unfold TTSService.generate_speech
    by_cases hempty : (text = [] ∨ pyStrip text = [])
    · simpa [hempty] using hinv
    · simp only [if_neg hempty]
      rcases hgm : TTSService.get_model load s
          ((available_voices.lookup
            (if (available_voices.lookup voice).isSome then voice
             else ("lightweight"))).getD ("")) with ⟨evs, s1, res⟩
      have h1 : stateInv s1 := by
        have h2 := stateInv_get_model load s
          ((available_voices.lookup
            (if (available_voices.lookup voice).isSome then voice
             else ("lightweight"))).getD ("")) hinv
        rw [hgm] at h2
        exact h2
      cases res with
      | error e => simpa [hgm] using h1
      | ok h =>
          cases hsy : synth ⟨pyStrip (if text.length > max_length
              then text.take max_length else text), none, none⟩ with
          | none => simpa [hgm, hsy] using h1
          | some audio =>
              by_cases ha : audio = []
              · simpa [hgm, hsy, ha] using h1
              · simpa [hgm, hsy, ha] using h1
  · unfold TTSService.cleanup
    by_cases hm : s.current_model.isSome
    · simp [hm, stateInv]
    · simpa [hm] using hinv
  · intro s2 h2
    simp only [force_cleanup, Option.some.injEq] at h2
    subst h2
    by_cases hm : s.current_model.isSome
    · simp [hm, stateInv]
    · simpa [hm] using hinv

/-- Witness for claim C10, from a state holding handle 7 under key k. -/
theorem claim_C10_witness :
    stateInv (⟨some 7, some ("k")⟩ : TTSState) ∧
    stateInv (TTSService.cleanup ⟨some 7, some ("k")⟩) :=
  ⟨by decide,
   (claim_C10_inv_preserved load0 synth0 ⟨some 7, some ("k")⟩ ("m") [] ("v") 1
      (by decide)).2.2.1⟩

/-- Claim C2: the speed clamp of line 176 always lands in the configured
bounds, an out-of-range speed is treated exactly as its clamped value (never
rejected), and every invocation of the external capability passes no speed
and no pitch keyword, hence never an out-of-range one. -/
theorem claim_C2_clamped_never_rejected (load : String → Option Nat)
    (synth : SynthCall → Option (List Nat)) (s : TTSState) (text : Str)
    (voice : String) (speed : ℚ) :
    (1/2 ≤ clampSpeed speed ∧ clampSpeed speed ≤ 2) ∧
    (∀ c ∈ synthCalls
        (TTSService.generate_speech load synth s text voice speed).1,
      c.speed = none ∧ c.pitch = none) ∧
    TTSService.generate_speech load synth s text voice speed =
      TTSService.generate_speech load synth s text voice (clampSpeed speed) := by
  refine ⟨⟨le_max_left _ _, max_le (by norm_num) (min_le_left _ _)⟩, ?_, rfl⟩
  intro c hc
  rcases synthCalls_generate_speech load synth s text voice speed with h | h
  · rw [h] at hc
    simp at hc
  · rw [h] at hc
    simp at hc
    subst hc
    exact ⟨rfl, rfl⟩

/-- Witness for claim C2 at the out-of-range speed 5, clamped to 2. -/
theorem claim_C2_witness :
    (1/2 ≤ clampSpeed 5 ∧ clampSpeed 5 ≤ 2) ∧
    TTSService.generate_speech load0 synth0 ⟨none, none⟩ (['h'] : Str)
        ("lightweight") 5 =
      TTSService.generate_speech load0 synth0 ⟨none, none⟩ (['h'] : Str)
        ("lightweight") (clampSpeed 5) :=
  ⟨(claim_C2_clamped_never_rejected load0 synth0 ⟨none, none⟩ ['h']
      ("lightweight") 5).1,
   (claim_C2_clamped_never_rejected load0 synth0 ⟨none, none⟩ ['h']
      ("lightweight") 5).2.2⟩

/-- Claim C9: generate_speech is insensitive to the speed argument: two calls
differing only in speed make identical capability invocations and in fact
produce identical traces, states and results, because the clamped speed is
never forwarded to the capability. -/
theorem claim_C9_speed_noninterference (load : String → Option Nat)
    (synth : SynthCall → Option (List Nat)) (s : TTSState) (text : Str)
    (voice : String) (sp1 sp2 : ℚ) :
    synthCalls (TTSService.generate_speech load synth s text voice sp1).1 =
      synthCalls (TTSService.generate_speech load synth s text voice sp2).1 ∧
    TTSService.generate_speech load synth s text voice sp1 =
      TTSService.generate_speech load synth s text voice sp2 :=
  ⟨rfl, rfl⟩

/-- Claim C7 (amended): under the truncate policy, for text longer than 500
characters, what reaches the external capability is the first 500 characters
of the text with leading and trailing whitespace then stripped, because the
code strips after truncating. -/
theorem claim_C7_amended_truncate_then_strip (load : String → Option Nat)
    (synth : SynthCall → Option (List Nat)) (s : TTSState) (text : Str)
    (voice : String) (speed : ℚ) (hlong : text.length > max_length)
    (c : SynthCall)
    (hc : c ∈ synthCalls
      (TTSService.generate_speech load synth s text voice speed).1) :
    c.text = pyStrip (text.take max_length) := by
  rcases synthCalls_generate_speech load synth s text voice speed with h | h
  · rw [h] at hc
    simp at hc
  · rw [h] at hc
    simp at hc
    subst hc
    simp [hlong]

set_option maxRecDepth 8000 in
/-- Counterexample to claim C7 as stated: this 501-character text ends its
500-character prefix in a space, so the capability receives only 499
characters, not exactly the first 500, because the strip runs after the
truncation. -/
theorem claim_C7_counterexample :
    ctext.length > max_length ∧
    synthCalls (TTSService.generate_speech load0 synth0 ⟨none, none⟩ ctext
        ("lightweight") 1).1 =
      [⟨List.replicate 499 'a', none, none⟩] ∧
    (List.replicate 499 'a' : Str) ≠ ctext.take max_length := by
  decide

set_option maxRecDepth 8000 in
/-- Witness for the amended claim C7 at the concrete 501-character text. -/
theorem claim_C7_witness :
    ctext.length > max_length ∧
    (⟨List.replicate 499 'a', none, none⟩ : SynthCall).text =
      pyStrip (ctext.take max_length) :=
  ⟨by decide,
   claim_C7_amended_truncate_then_strip load0 synth0 ⟨none, none⟩ ctext
     ("lightweight") 1 (by decide) ⟨List.replicate 499 'a', none, none⟩
     (by decide)⟩

/-- Claim C1 (amended): when the first memory reading exceeds the 480 MB
threshold, the admission check always issues a reclamation hint and waits one
second, then rejects with 503 exactly when the re-read usage still exceeds
the threshold; there is no immediate-rejection path. -/
theorem claim_C1_amended_hint_wait_then_reject (load : String → Option Nat)
    (synth : SynthCall → Option (List Nat)) (s : TTSState) (m1 m2 : ℚ)
    (req : TTSRequest) (h1 : m1 > hard_threshold) :
    (admission_check m1 m2).gcIssued = true ∧
    (admission_check m1 m2).sleptSeconds = 1 ∧
    ((admission_check m1 m2).admitted = false ↔ m2 > hard_threshold) ∧
    (m2 > hard_threshold →
      (generate_speech_endpoint load synth (some s) m1 m2 req).2.2.2 =
        Except.error ⟨503,
          "Service temporarily overloaded - please try again in a moment"⟩) := by
  by_cases h2 : m2 > hard_threshold
  · refine ⟨?_, ?_, ?_, ?_⟩ <;>
      simp [admission_check, h1, h2, generate_speech_endpoint]
  · refine ⟨?_, ?_, ?_, ?_⟩ <;>
      simp [admission_check, h1, h2, generate_speech_endpoint]

/-- Witness for the amended claim C1 at memory readings of 500 MB. -/
theorem claim_C1_witness :
    (500 : ℚ) > hard_threshold ∧
    (admission_check 500 500).gcIssued = true ∧
    (admission_check 500 500).sleptSeconds = 1 :=
  ⟨by decide,
   (claim_C1_amended_hint_wait_then_reject load0 synth0 ⟨none, none⟩ 500 500
      ⟨[], none, none⟩ (by decide)).1,
   (claim_C1_amended_hint_wait_then_reject load0 synth0 ⟨none, none⟩ 500 500
      ⟨[], none, none⟩ (by decide)).2.1⟩

/-- Counterexample to claim C1 as stated: at a first reading of 500 MB, at or
above the threshold, the admission check issues a reclamation hint and sleeps
one second rather than rejecting immediately; and when the re-read drops to
400 MB the request is even admitted rather than rejected. -/
theorem claim_C1_counterexample :
    (500 : ℚ) ≥ hard_threshold ∧
    ¬ ((admission_check 500 500).gcIssued = false ∧
       (admission_check 500 500).sleptSeconds = 0) ∧
    (admission_check 500 400).admitted = true := by
  decide

/-- Claim C8 (amended): a request whose text is empty or whitespace-only
never causes a capability invocation; it is answered 400 whenever the
admission check admits it, but under overload the admission check rejects it
with 503 before the text is ever examined. -/
theorem claim_C8_amended_empty_text (load : String → Option Nat)
    (synth : SynthCall → Option (List Nat)) (s : TTSState) (m1 m2 : ℚ)
    (req : TTSRequest) (hempty : req.text = [] ∨ pyStrip req.text = []) :
    synthCalls (generate_speech_endpoint load synth (some s) m1 m2 req).2.1
      = [] ∧
    ((admission_check m1 m2).admitted = true →
      (generate_speech_endpoint load synth (some s) m1 m2 req).2.2.2 =
        Except.error ⟨400, "Text cannot be empty"⟩) := by
  unfold generate_speech_endpoint
  by_cases hadm : (admission_check m1 m2).admitted = false
  · simp [hadm, synthCalls]
  · simp [hadm, hempty, synthCalls]

/-- Witness for the amended claim C8: a whitespace-only request at low memory
readings is answered 400 and causes no capability call. -/
theorem claim_C8_witness :
    synthCalls (generate_speech_endpoint load0 synth0 (some ⟨none, none⟩) 100
      100 ⟨[' '], none, none⟩).2.1 = [] ∧
    (generate_speech_endpoint load0 synth0 (some ⟨none, none⟩) 100 100
        ⟨[' '], none, none⟩).2.2.2 =
      Except.error ⟨400, "Text cannot be empty"⟩ := by
  have h := claim_C8_amended_empty_text load0 synth0 ⟨none, none⟩ 100 100
    ⟨[' '], none, none⟩ (Or.inr (by decide))
  exact ⟨h.1, h.2 (by decide)⟩

/-- Counterexample to claim C8 as stated: a whitespace-only request arriving
under memory overload is rejected with 503 by the admission check, not
answered 400, because the endpoint checks memory before validating text. -/
theorem claim_C8_counterexample :
    pyStrip ([' '] : Str) = [] ∧
    (generate_speech_endpoint load0 synth0 (some ⟨none, none⟩) 500 500
        ⟨[' '], none, none⟩).2.2.2 =
      Except.error ⟨503,
        "Service temporarily overloaded - please try again in a moment"⟩ := by
  decide

end AiTts
